import Mathlib

/-!
Shallow embedding of `src/csvToDb.py`, a CSV-to-SQLite importer.

The program reads a database name and a list of CSV file paths from the
command line, derives a table name from each file path, creates a table
per file (columns taken from the CSV header, all typed TEXT), inserts
the data rows, and commits once at the end.

Modelling choices:
* A SQLite store is an association list of named tables; a table stores
  its column (name, type) pairs, whether it carries a UNIQUE-over-all-
  columns constraint (tables created by this program never do; a table
  that pre-existed in the database may), and its records.
* `sqlite3` errors relevant to this program are modelled by
  `ImportError`: `integrity` (sqlite3.IntegrityError), `operational`
  (sqlite3.OperationalError, e.g. "no such table" or "table has N
  columns but M values were supplied"), `stopIteration` (the Python
  `next` on an exhausted reader), and `fileError` (open/decode failure).
* A CSV file is a list of already-parsed rows (each a list of field
  strings), matching the output of `csv.reader`; the file system maps
  paths to file contents or a read error.
* Diagnostics printed by the program are collected structurally in
  `Diag` and rendered to text by `renderDiag`, mirroring the f-strings.
-/

/-- One SQLite table: columns as (name, type) pairs, an optional
UNIQUE-over-all-columns constraint, and the inserted records. -/
structure Table where
  columns : List (String × String)
  uniqueRows : Bool
  records : List (List String)
  deriving DecidableEq, Repr

/-- The SQLite database: an association list from table name to table. -/
abbrev Store := List (String × Table)

/-- Errors that can arise during an import run. -/
inductive ImportError where
  | integrity (msg : String)
  | operational (msg : String)
  | stopIteration
  | fileError (msg : String)
  deriving DecidableEq, Repr

/-- Diagnostics printed by the row loader. -/
inductive Diag where
  | skippedRow (row : List String)
  | insertError (row : List String) (e : ImportError)
  deriving DecidableEq, Repr

/-- Content of a source file: parsed rows, or a read/decode failure. -/
inductive FileContent where
  | ok (rows : List (List String))
  | readError (msg : String)
  deriving DecidableEq, Repr

/-- The file system visible to the program. -/
abbrev FileSystem := List (String × FileContent)

/-- Look a table up by name (first match, as in SQLite's unique names). -/
def lookupTable : Store → String → Option Table
  | [], _ => none
  | (n, t) :: rest, name => if n = name then some t else lookupTable rest name

/-- Replace the first table of the given name. -/
def updateTable : Store → String → Table → Store
  | [], _, _ => []
  | (n, t) :: rest, name, t' =>
      if n = name then (n, t') :: rest else (n, t) :: updateTable rest name t'

/-- Look a file up by path. -/
def lookupFile : FileSystem → String → Option FileContent
  | [], _ => none
  | (p, c) :: rest, path => if p = path then some c else lookupFile rest path

/-- Model of `open(csv_file_path, ...)` with `csv.reader`: produce the
parsed rows, or fail (missing file, decode failure). -/
def readFile (fs : FileSystem) (path : String) :
    Except ImportError (List (List String)) :=
  match lookupFile fs path with
  | none => .error (.fileError ("No such file or directory: " ++ path))
  | some (.ok rows) => .ok rows
  | some (.readError m) => .error (.fileError m)

/-- Model of `os.path.basename`: the part after the last `/`. -/
def basename (p : String) : String :=
  (p.toList.foldl (fun acc c => if c = '/' then [] else acc ++ [c]) []).asString

/-- Index of the last occurrence of a character in a list, if any. -/
def lastIdxOf (c : Char) : List Char → Option Nat
  | [] => none
  | x :: xs =>
      match lastIdxOf c xs with
      | some i => some (i + 1)
      | none => if x = c then some 0 else none

/-- Model of `os.path.splitext(...)[0]` on a basename: drop the suffix starting at
the last `.`, provided some earlier character of the name is not a `.`
(so `.bashrc` keeps its name, `a.1.csv` becomes `a.1`). -/
def splitextRoot (l : List Char) : List Char :=
  match lastIdxOf '.' l with
  | none => l
  | some i => if (l.take i).any (fun c => c ≠ '.') then l.take i else l

/-- Python `str.replace` for single characters. -/
def replaceChar (a b : Char) (l : List Char) : List Char :=
  l.map fun c => if c = a then b else c

/-- Embedding of `sanitize_table_name`: basename, strip the extension, then replace
`.`, ` ` and `-` by `_` (in the source's order of `replace` calls). -/
def sanitize_table_name (file_path : String) : String :=
  let base := basename file_path
  let root := splitextRoot base.toList
  (replaceChar '-' '_' (replaceChar ' ' '_' (replaceChar '.' '_' root))).asString

/-- Embedding of `create_table_from_csv_header`: execute
`CREATE TABLE IF NOT EXISTS "name" ("c1" TEXT, "c2" TEXT, ...)`.
If the table already exists this is a no-op; otherwise a fresh table is
appended whose columns are the header fields, each typed TEXT, with no
constraints and no records. -/
def create_table_from_csv_header (st : Store) (table_name : String)
    (header_row : List String) : Store :=
  match lookupTable st table_name with
  | some _ => st
  | none => st ++ [(table_name, ⟨header_row.map (fun c => (c, "TEXT")), false, []⟩)]

/-- One `cursor.execute("INSERT INTO \"name\" VALUES (...)", vals)`:
fails with OperationalError if the table is missing or the value count
differs from the table's column count; fails with IntegrityError if a
UNIQUE constraint rejects the row; otherwise appends the row verbatim. -/
def insertRow (st : Store) (name : String) (vals : List String) :
    Except ImportError Store :=
  match lookupTable st name with
  | none => .error (.operational ("no such table: " ++ name))
  | some t =>
      if vals.length = t.columns.length then
        if t.uniqueRows && t.records.contains vals then
          .error (.integrity "UNIQUE constraint failed")
        else
          .ok (updateTable st name ⟨t.columns, t.uniqueRows, t.records ++ [vals]⟩)
      else
        .error (.operational "table has a different number of columns than values supplied")

/-- Is this error a `sqlite3.IntegrityError`? Only these are caught by
the `except` clause of `insert_csv_to_table`. -/
def isIntegrity : ImportError → Bool
  | .integrity _ => true
  | _ => false

/-- Prepend a printed diagnostic to the result of processing the
remaining rows. -/
def prependDiag (d : Diag) :
    Except ImportError (Store × List Diag) → Except ImportError (Store × List Diag)
  | .ok (s, ds) => .ok (s, d :: ds)
  | .error e => .error e

/-- The `for row in reader` loop of `insert_csv_to_table`: a row whose
field count equals the header's is inserted, catching only
IntegrityError (diagnostic, continue); any other insert error
propagates; a row with a different field count is skipped with a
diagnostic. -/
def insertRows (st : Store) (name : String) (n : Nat) :
    List (List String) → Except ImportError (Store × List Diag)
  | [] => .ok (st, [])
  | r :: rest =>
      if r.length = n then
        match insertRow st name r with
        | .ok st' => insertRows st' name n rest
        | .error e =>
            if isIntegrity e then
              prependDiag (.insertError r e) (insertRows st name n rest)
            else
              .error e
      else
        prependDiag (.skippedRow r) (insertRows st name n rest)

/-- Embedding of `insert_csv_to_table`: reopen the file, read the header row (whose
length fixes the placeholder count), then run the insertion loop over
the data rows. -/
def insert_csv_to_table (st : Store) (table_name : String) (fs : FileSystem)
    (csv_file_path : String) : Except ImportError (Store × List Diag) :=
  match readFile fs csv_file_path with
  | .error e => .error e
  | .ok [] => .error .stopIteration
  | .ok (header_row :: dataRows) =>
      insertRows st table_name header_row.length dataRows

/-- The body of the `for csv_file_path in csv_file_paths` loop of
`add_csvs_to_database`: sanitize the name, open the file, read the
header (raising StopIteration on an empty file), create the table from
the header, then insert the file's rows. -/
def processOneFile (fs : FileSystem) (st : Store) (path : String) :
    Except ImportError (Store × List Diag) :=
  match readFile fs path with
  | .error e => .error e
  | .ok [] => .error .stopIteration
  | .ok (header_row :: _) =>
      let table_name := sanitize_table_name path
      let st1 := create_table_from_csv_header st table_name header_row
      insert_csv_to_table st1 table_name fs path

/-- Outcome of an invocation: normal completion with the final store and
the printed diagnostics, or an uncaught error carrying the transaction
state and the diagnostics printed before the abort. -/
inductive RunRes where
  | ok (st : Store) (diags : List Diag)
  | err (e : ImportError) (st : Store) (diags : List Diag)
  deriving DecidableEq, Repr

/-- Process the files strictly in order, accumulating diagnostics; the
first uncaught error aborts the loop. -/
def processFiles (fs : FileSystem) (st : Store) (diags : List Diag) :
    List String → RunRes
  | [] => .ok st diags
  | p :: rest =>
      match processOneFile fs st p with
      | .ok (st1, ds) => processFiles fs st1 (diags ++ ds) rest
      | .error e => .err e st diags

/-- Embedding of `add_csvs_to_database`: process every file, then (on the `.ok`
branch) `conn.commit()` runs once. -/
def add_csvs_to_database (st : Store) (fs : FileSystem)
    (csv_file_paths : List String) : RunRes :=
  processFiles fs st [] csv_file_paths

/-- The durable content of the database after a run: the final store
when the single commit was reached, the initial store otherwise (the
transaction is never committed on an uncaught error). -/
def committedStore (st : Store) (fs : FileSystem) (paths : List String) : Store :=
  match add_csvs_to_database st fs paths with
  | .ok s _ => s
  | .err _ _ _ => st

/-- Result of running the script from the command line. -/
inductive MainResult where
  | usage
  | ran (r : RunRes)
  deriving DecidableEq, Repr

/-- The `__main__` block: `argv` includes the script name; with fewer
than 3 entries the usage message is printed and the process exits 1
before touching the store or any file; otherwise the importer runs on
`argv[2:]` against the store named by `argv[1]`. -/
def pymain (argv : List String) (st : Store) (fs : FileSystem) : MainResult :=
  if argv.length < 3 then .usage
  else .ran (add_csvs_to_database st fs (argv.drop 2))

/-- Process exit code: 1 on usage error, 1 on an uncaught exception,
0 on normal completion. -/
def exitCode : MainResult → Nat
  | .usage => 1
  | .ran (.ok _ _) => 0
  | .ran (.err _ _ _) => 1

/-- Durable store content after a command-line run. -/
def mainCommitted (argv : List String) (st : Store) (fs : FileSystem) : Store :=
  match pymain argv st fs with
  | .usage => st
  | .ran (.ok s _) => s
  | .ran (.err _ _ _) => st

/-- Python `repr` of a list of plain strings, as `print` shows a row. -/
def pyListRepr (row : List String) : String :=
  "[" ++ String.intercalate ", " (row.map fun s => "'" ++ s ++ "'") ++ "]"

/-- The message text of an error, as interpolated into a diagnostic. -/
def errText : ImportError → String
  | .integrity m => m
  | .operational m => m
  | .stopIteration => "StopIteration"
  | .fileError m => m

/-- The f-strings printed by `insert_csv_to_table`. -/
def renderDiag : Diag → String
  | .skippedRow row =>
      "Skipping row with incorrect number of fields: " ++ pyListRepr row
  | .insertError row e =>
      "Error inserting row: " ++ pyListRepr row ++ ". Error: " ++ errText e

/-- Does `sub` occur as a contiguous run inside `hay`? -/
def containsSub (hay sub : List Char) : Bool :=
  match hay with
  | [] => sub.isEmpty
  | _ :: t => sub.isPrefixOf hay || containsSub t sub

/-- Does the string `s` mention `sub` as a substring? -/
def strMentions (s sub : String) : Bool :=
  containsSub s.toList sub.toList

/-! ### Association-list store lemmas -/

lemma lookupTable_append_right (st : Store) (name : String) (tb : Table)
    (h : lookupTable st name = none) :
    lookupTable (st ++ [(name, tb)]) name = some tb := by
  induction st with
  | nil => simp [lookupTable]
  | cons e rest ih =>
      obtain ⟨n, t⟩ := e
      by_cases hn : n = name
      · simp [lookupTable, hn] at h
      · simp only [lookupTable, List.cons_append, if_neg hn] at h ⊢
        exact ih h

lemma lookupTable_updateTable (st : Store) (name : String) (t t' : Table)
    (h : lookupTable st name = some t) :
    lookupTable (updateTable st name t') name = some t' := by
  induction st with
  | nil => simp [lookupTable] at h
  | cons e rest ih =>
      obtain ⟨n, tb⟩ := e
      by_cases hn : n = name
      · simp [lookupTable, updateTable, hn]
      · simp only [lookupTable, updateTable, if_neg hn] at h ⊢
        exact ih h

lemma updateTable_eq_self (st : Store) (name : String) (t : Table)
    (h : lookupTable st name = some t) :
    updateTable st name t = st := by
  induction st with
  | nil => simp [updateTable]
  | cons e rest ih =>
      obtain ⟨n, tb⟩ := e
      by_cases hn : n = name
      · simp only [lookupTable, if_pos hn] at h
        simp [updateTable, hn, Option.some_inj.mp h]
      · simp only [lookupTable, if_neg hn] at h
        simp [updateTable, hn, ih h]

lemma updateTable_updateTable (st : Store) (name : String) (a b : Table) :
    updateTable (updateTable st name a) name b = updateTable st name b := by
  induction st with
  | nil => simp [updateTable]
  | cons e rest ih =>
      obtain ⟨n, tb⟩ := e
      by_cases hn : n = name
      · simp [updateTable, hn]
      · simp [updateTable, hn, ih]

lemma updateTable_append_right (st : Store) (name : String) (tb tb' : Table)
    (h : lookupTable st name = none) :
    updateTable (st ++ [(name, tb)]) name tb' = st ++ [(name, tb')] := by
  induction st with
  | nil => simp [updateTable]
  | cons e rest ih =>
      obtain ⟨n, t⟩ := e
      by_cases hn : n = name
      · simp [lookupTable, hn] at h
      · simp only [lookupTable, if_neg hn] at h
        simp [updateTable, hn, ih h]

/-! ### Claim theorems -/

/-- C2: the derived table identifier never contains a period, a space or
a hyphen: `sanitize_table_name` ends by replacing each of `.`, ` ` and
`-` with `_`, and no replacement reintroduces a banned character.  The
derivation is a total function of the path, hence deterministic and
never failing. -/
theorem sanitize_no_bad_chars (p : String) :
    '.' ∉ (sanitize_table_name p).toList
    ∧ ' ' ∉ (sanitize_table_name p).toList
    ∧ '-' ∉ (sanitize_table_name p).toList := by
  refine ⟨?_, ?_, ?_⟩ <;>
  · simp only [sanitize_table_name, replaceChar, List.toList_asString, List.map_map]
    intro hmem
    obtain ⟨c, _, hc⟩ := List.mem_map.mp hmem
    by_cases h1 : c = '.' <;> by_cases h2 : c = ' ' <;> by_cases h3 : c = '-' <;>
      simp [h1, h2, h3, Function.comp] at hc

/-- C6: table provisioning is idempotent: when a table of the given name
already exists in the store, `create_table_from_csv_header` leaves the
store (hence the existing table's column set) entirely unchanged and
raises no error, whatever column list is supplied. -/
theorem create_table_idempotent (st : Store) (name : String) (cols : List String)
    (h : (lookupTable st name).isSome) :
    create_table_from_csv_header st name cols = st := by
  obtain ⟨t, ht⟩ := Option.isSome_iff_exists.mp h
  simp [create_table_from_csv_header, ht]

/-- Witness for C6 at a concrete store that already holds table `t`,
with a different column list supplied the second time. -/
theorem create_table_idempotent_witness :
    create_table_from_csv_header
        [("t", ⟨[("a", "TEXT")], false, []⟩)] "t" ["x", "y"]
      = [("t", ⟨[("a", "TEXT")], false, []⟩)] :=
  create_table_idempotent [("t", ⟨[("a", "TEXT")], false, []⟩)] "t" ["x", "y"]
    (by decide)

/-- C7: creating a table that does not pre-exist yields exactly one
TEXT-typed column per header field, named verbatim in header order, with
no constraint and no records; and no later row insertion alters the
column set — a successful insert appends exactly the bound field values,
verbatim, as one record. -/
theorem create_table_schema (st : Store) (name : String) (header : List String)
    (h : lookupTable st name = none) :
    lookupTable (create_table_from_csv_header st name header) name
      = some ⟨header.map (fun c => (c, "TEXT")), false, []⟩
    ∧ ∀ (s s' : Store) (t : Table) (vals : List String),
        lookupTable s name = some t → insertRow s name vals = .ok s' →
        lookupTable s' name = some ⟨t.columns, t.uniqueRows, t.records ++ [vals]⟩ := by
  constructor
  · simp only [create_table_from_csv_header, h]
    exact lookupTable_append_right st name _ h
  · intro s s' t vals hlk hins
    simp only [insertRow, hlk] at hins
    split at hins
    · split at hins
      · exact absurd hins (by simp)
      · injection hins with hs
        subst hs
        exact lookupTable_updateTable s name t _ hlk
    · exact absurd hins (by simp)

/-- Witness for C7: a fresh store, header `["a", "b", "c"]`, then a
successful insert into the created table. -/
theorem create_table_schema_witness :
    lookupTable (create_table_from_csv_header [] "people" ["a", "b", "c"]) "people"
      = some ⟨[("a", "TEXT"), ("b", "TEXT"), ("c", "TEXT")], false, []⟩ := by
  have h := create_table_schema [] "people" ["a", "b", "c"] (by decide)
  exact h.1

/-- Workhorse: over a table with the right column count and no
constraint, the insertion loop accepts exactly the rows whose field
count is `n` (appending them in order, verbatim) and emits exactly one
skipped-row diagnostic for each other row. -/
lemma insertRows_ok (name : String) (n : Nat) :
    ∀ (rows : List (List String)) (st : Store) (t : Table),
      lookupTable st name = some t → t.columns.length = n → t.uniqueRows = false →
      insertRows st name n rows =
        .ok (updateTable st name
               ⟨t.columns, false, t.records ++ rows.filter (fun r => decide (r.length = n))⟩,
             (rows.filter (fun r => decide (r.length ≠ n))).map Diag.skippedRow)
  | [], st, t, hlk, hc, hu => by
      simp only [insertRows, List.filter_nil, List.append_nil, List.map_nil]
      have ht : (⟨t.columns, false, t.records⟩ : Table) = t := by
        cases t
        simp_all
      rw [ht, updateTable_eq_self st name t hlk]
  | r :: rows, st, t, hlk, hc, hu => by
      by_cases hr : r.length = n
      · have hins : insertRow st name r =
            .ok (updateTable st name ⟨t.columns, false, t.records ++ [r]⟩) := by
          simp [insertRow, hlk, hr, hc, hu]
        have hlk' := lookupTable_updateTable st name t
          ⟨t.columns, false, t.records ++ [r]⟩ hlk
        have ih := insertRows_ok name n rows
          (updateTable st name ⟨t.columns, false, t.records ++ [r]⟩)
          ⟨t.columns, false, t.records ++ [r]⟩ hlk' hc rfl
        simp only [insertRows, if_pos hr, hins]
        rw [ih, updateTable_updateTable]
        simp [List.filter_cons, hr]
      · have ih := insertRows_ok name n rows st t hlk hc hu
        simp only [insertRows, if_neg hr]
        rw [ih]
        simp [prependDiag, List.filter_cons, hr]

/-- C1: with the table present, matching the header's column count and
unconstrained, loading a file stores exactly the data rows whose field
count equals the header's (in order, verbatim), while every other data
row contributes zero records and exactly one skipped-row diagnostic;
the loop never aborts. -/
theorem row_loader_counts (fs : FileSystem) (path name : String) (st : Store)
    (t : Table) (header : List String) (dataRows : List (List String))
    (hread : readFile fs path = .ok (header :: dataRows))
    (hlk : lookupTable st name = some t)
    (hc : t.columns.length = header.length)
    (hu : t.uniqueRows = false) :
    insert_csv_to_table st name fs path =
      .ok (updateTable st name
             ⟨t.columns, false,
              t.records ++ dataRows.filter (fun r => decide (r.length = header.length))⟩,
           (dataRows.filter (fun r => decide (r.length ≠ header.length))).map
             Diag.skippedRow) := by
  simp only [insert_csv_to_table, hread]
  exact insertRows_ok name header.length dataRows st t hlk hc hu

/-- Witness for C1: header of two fields, three data rows of which one
is malformed; exactly two records are stored and one diagnostic is
produced. -/
theorem row_loader_counts_witness :
    insert_csv_to_table [("d", ⟨[("a", "TEXT"), ("b", "TEXT")], false, []⟩)] "d"
        [("d.csv", .ok [["a", "b"], ["1", "2"], ["x"], ["3", "4"]])] "d.csv"
      = .ok ([("d", ⟨[("a", "TEXT"), ("b", "TEXT")], false, [["1", "2"], ["3", "4"]]⟩)],
             [Diag.skippedRow ["x"]]) :=
  (row_loader_counts [("d.csv", .ok [["a", "b"], ["1", "2"], ["x"], ["3", "4"]])]
      "d.csv" "d" [("d", ⟨[("a", "TEXT"), ("b", "TEXT")], false, []⟩)]
      ⟨[("a", "TEXT"), ("b", "TEXT")], false, []⟩ ["a", "b"]
      [["1", "2"], ["x"], ["3", "4"]]
      rfl (by decide) (by decide) rfl).trans (by rfl)

/-- C3: the `except sqlite3.IntegrityError` clause catches exactly the
integrity violations: an integrity failure on a well-formed row yields
one diagnostic naming the row and the error and the loop moves on to
the remaining rows over an unchanged store, while any other insertion
error is re-raised, and an error escaping a file's processing terminates
the whole invocation uncommitted. -/
theorem integrity_only_caught (st : Store) (name : String) (n : Nat)
    (r : List String) (rest : List (List String)) (e : ImportError)
    (hr : r.length = n) (hins : insertRow st name r = .error e) :
    (∀ m, e = .integrity m →
        insertRows st name n (r :: rest)
          = prependDiag (.insertError r e) (insertRows st name n rest))
    ∧ (isIntegrity e = false → insertRows st name n (r :: rest) = .error e)
    ∧ (∀ (fs : FileSystem) (s : Store) (p : String) (ps : List String)
          (e' : ImportError),
        processOneFile fs s p = .error e' →
        add_csvs_to_database s fs (p :: ps) = .err e' s []
        ∧ committedStore s fs (p :: ps) = s) := by
  refine ⟨?_, ?_, ?_⟩
  · intro m hm
    subst hm
    simp [insertRows, hr, hins, isIntegrity]
  · intro hni
    simp [insertRows, hr, hins, hni]
  · intro fs s p ps e' hp
    have h1 : add_csvs_to_database s fs (p :: ps) = .err e' s [] := by
      simp [add_csvs_to_database, processFiles, hp]
    exact ⟨h1, by simp [committedStore, h1]⟩

/-- Witness for C3: a well-formed row whose insertion raises a
non-integrity (operational) error makes the whole loop re-raise it,
leaving the remaining rows unprocessed. -/
theorem integrity_only_caught_witness :
    insertRows [("t", ⟨[("a", "TEXT"), ("b", "TEXT")], false, []⟩)] "t" 1
        [["x"], ["y"]]
      = .error (.operational "table has a different number of columns than values supplied") :=
  (integrity_only_caught [("t", ⟨[("a", "TEXT"), ("b", "TEXT")], false, []⟩)] "t" 1
      ["x"] [["y"]]
      (.operational "table has a different number of columns than values supplied")
      rfl rfl).2.1 rfl

/-- Sequencing: processing a concatenated file list runs the first part
and, only if it completed, continues with the second from the state and
diagnostics reached. -/
lemma processFiles_append (fs : FileSystem) :
    ∀ (xs : List String) (st : Store) (d : List Diag) (ys : List String),
      processFiles fs st d (xs ++ ys) =
        match processFiles fs st d xs with
        | .ok s d' => processFiles fs s d' ys
        | .err e s d' => .err e s d'
  | [], st, d, ys => by simp [processFiles]
  | x :: xs, st, d, ys => by
      simp only [List.cons_append, processFiles]
      cases hp : processOneFile fs st x with
      | ok v =>
          obtain ⟨st1, ds⟩ := v
          simpa using processFiles_append fs xs st1 (d ++ ds) ys
      | error e => simp

/-- C5: the single `conn.commit()` runs only after every file was
processed (conjunct one); if reading any file fails, the error is not
caught, the run aborts there, and the store keeps its initial content —
nothing is durable, including the files fully processed earlier in the
same invocation (conjunct two). -/
theorem single_commit_on_success_abort_on_read_failure
    (st : Store) (fs : FileSystem) (p : String) (post : List String)
    (e : ImportError) (hre : readFile fs p = .error e) :
    (∀ (paths : List String) (s : Store) (d : List Diag),
        add_csvs_to_database st fs paths = .ok s d →
        committedStore st fs paths = s)
    ∧ ∀ (pre : List String) (s1 : Store) (d1 : List Diag),
        processFiles fs st [] pre = .ok s1 d1 →
        add_csvs_to_database st fs (pre ++ p :: post) = .err e s1 d1
        ∧ committedStore st fs (pre ++ p :: post) = st := by
  constructor
  · intro paths s d h
    simp [committedStore, h]
  · intro pre s1 d1 hpre
    have hpo : processOneFile fs s1 p = .error e := by
      simp [processOneFile, hre]
    have h1 : add_csvs_to_database st fs (pre ++ p :: post) = .err e s1 d1 := by
      unfold add_csvs_to_database
      rw [processFiles_append fs pre st [] (p :: post), hpre]
      simp [processFiles, hpo]
    exact ⟨h1, by simp [committedStore, h1]⟩

/-- Witness for C5: `good.csv` is fully processed, then the missing file
`missing.csv` aborts the run and nothing at all is committed. -/
theorem single_commit_witness :
    add_csvs_to_database [] [("good.csv", .ok [["a"], ["1"]])]
        ["good.csv", "missing.csv"]
      = .err (.fileError "No such file or directory: missing.csv")
          [("good", ⟨[("a", "TEXT")], false, [["1"]]⟩)] []
    ∧ committedStore [] [("good.csv", .ok [["a"], ["1"]])]
        ["good.csv", "missing.csv"] = [] :=
  (single_commit_on_success_abort_on_read_failure []
      [("good.csv", .ok [["a"], ["1"]])] "missing.csv" []
      (.fileError "No such file or directory: missing.csv") rfl).2
    ["good.csv"] [("good", ⟨[("a", "TEXT")], false, [["1"]]⟩)] [] rfl

/-- C9: with fewer than two real arguments (store name plus at least
one source file) the program reports usage, exits with status 1, and
neither reads a file nor writes the store — the outcome is `usage` for
every file system and the durable store is the initial one. -/
theorem usage_guard (argv : List String) (st : Store) (fs : FileSystem)
    (h : argv.length < 3) :
    pymain argv st fs = .usage
    ∧ exitCode (pymain argv st fs) = 1
    ∧ mainCommitted argv st fs = st := by
  have hp : pymain argv st fs = .usage := by simp [pymain, h]
  exact ⟨hp, by simp [exitCode, hp], by simp [mainCommitted, hp]⟩

/-- Witness for C9: only a store path is given. -/
theorem usage_guard_witness :
    pymain ["script.py", "database.db"] [] [("a.csv", .ok [["a"]])] = .usage
    ∧ exitCode (pymain ["script.py", "database.db"] [] [("a.csv", .ok [["a"]])]) = 1
    ∧ mainCommitted ["script.py", "database.db"] [] [("a.csv", .ok [["a"]])] = [] :=
  usage_guard ["script.py", "database.db"] [] [("a.csv", .ok [["a"]])] (by decide)

/-- C10: a completely empty source file makes the header read
(`next(reader)`) raise StopIteration before the table-creation step;
the error is uncaught, so the run aborts with the store as it was on
entering that file — no table for it, no further file, no commit. -/
theorem empty_file_aborts (fs : FileSystem) (st : Store) (p : String)
    (rest : List String) (h : readFile fs p = .ok []) :
    add_csvs_to_database st fs (p :: rest) = .err .stopIteration st []
    ∧ committedStore st fs (p :: rest) = st := by
  have hpo : processOneFile fs st p = .error .stopIteration := by
    simp [processOneFile, h]
  have h1 : add_csvs_to_database st fs (p :: rest) = .err .stopIteration st [] := by
    simp [add_csvs_to_database, processFiles, hpo]
  exact ⟨h1, by simp [committedStore, h1]⟩

/-- Witness for C10: an empty file aborts the run before the following
file is even considered. -/
theorem empty_file_aborts_witness :
    add_csvs_to_database []
        [("empty.csv", .ok []), ("other.csv", .ok [["a"], ["1"]])]
        ["empty.csv", "other.csv"]
      = .err .stopIteration [] []
    ∧ committedStore []
        [("empty.csv", .ok []), ("other.csv", .ok [["a"], ["1"]])]
        ["empty.csv", "other.csv"] = [] :=
  empty_file_aborts [("empty.csv", .ok []), ("other.csv", .ok [["a"], ["1"]])]
    [] "empty.csv" ["other.csv"] rfl

/-- C8: importing `people.csv` (`id,name` / `1,Alice` / `2,Bob,extra`)
into a fresh store yields table `people` holding exactly the record
`(1, Alice)`; the third line is skipped with one diagnostic, and the
printed diagnostic text mentions each of the row's field values `2`,
`Bob` and `extra`. -/
theorem people_scenario :
    add_csvs_to_database []
        [("people.csv", .ok [["id", "name"], ["1", "Alice"], ["2", "Bob", "extra"]])]
        ["people.csv"]
      = .ok [("people", ⟨[("id", "TEXT"), ("name", "TEXT")], false, [["1", "Alice"]]⟩)]
          [Diag.skippedRow ["2", "Bob", "extra"]]
    ∧ committedStore []
        [("people.csv", .ok [["id", "name"], ["1", "Alice"], ["2", "Bob", "extra"]])]
        ["people.csv"]
      = [("people", ⟨[("id", "TEXT"), ("name", "TEXT")], false, [["1", "Alice"]]⟩)]
    ∧ strMentions (renderDiag (Diag.skippedRow ["2", "Bob", "extra"])) "2" = true
    ∧ strMentions (renderDiag (Diag.skippedRow ["2", "Bob", "extra"])) "Bob" = true
    ∧ strMentions (renderDiag (Diag.skippedRow ["2", "Bob", "extra"])) "extra" = true :=
  ⟨by rfl, by rfl, by rfl, by rfl, by rfl⟩

/-- All rows of the right width pass the filter. -/
lemma filter_all_eq {rows : List (List String)} {n : Nat}
    (h : ∀ r ∈ rows, r.length = n) :
    rows.filter (fun r => decide (r.length = n)) = rows :=
  List.filter_eq_self.mpr (fun a ha => by simpa using h a ha)

/-- No row of the right width is mismatched. -/
lemma filter_none_ne {rows : List (List String)} {n : Nat}
    (h : ∀ r ∈ rows, r.length = n) :
    rows.filter (fun r => decide (r.length ≠ n)) = [] :=
  List.filter_eq_nil_iff.mpr (fun a ha => by simpa using h a ha)

/-- Processing a well-formed file whose table name is not yet taken
creates the table and stores all its data rows. -/
lemma processOneFile_new (fs : FileSystem) (st : Store) (path : String)
    (header : List String) (rows : List (List String))
    (hread : readFile fs path = .ok (header :: rows))
    (hnone : lookupTable st (sanitize_table_name path) = none)
    (hrows : ∀ r ∈ rows, r.length = header.length) :
    processOneFile fs st path =
      .ok (st ++ [(sanitize_table_name path,
                   ⟨header.map (fun c => (c, "TEXT")), false, rows⟩)], []) := by
  have hcr : create_table_from_csv_header st (sanitize_table_name path) header
      = st ++ [(sanitize_table_name path,
                ⟨header.map (fun c => (c, "TEXT")), false, []⟩)] := by
    simp [create_table_from_csv_header, hnone]
  have hlk := lookupTable_append_right st (sanitize_table_name path)
    ⟨header.map (fun c => (c, "TEXT")), false, []⟩ hnone
  have hrun := insertRows_ok (sanitize_table_name path) header.length rows
    (st ++ [(sanitize_table_name path,
             ⟨header.map (fun c => (c, "TEXT")), false, []⟩)])
    ⟨header.map (fun c => (c, "TEXT")), false, []⟩ hlk (by simp) rfl
  rw [filter_all_eq hrows, filter_none_ne hrows] at hrun
  simp only [processOneFile, hread, hcr, insert_csv_to_table, hrun]
  rw [updateTable_append_right st _ _ _ hnone]
  simp

/-- Processing a well-formed file against an existing, unconstrained
table of matching width appends all its data rows to that table. -/
lemma processOneFile_existing (fs : FileSystem) (st : Store) (path : String)
    (header : List String) (rows : List (List String)) (t : Table)
    (hread : readFile fs path = .ok (header :: rows))
    (hsome : lookupTable st (sanitize_table_name path) = some t)
    (hc : t.columns.length = header.length) (hu : t.uniqueRows = false)
    (hrows : ∀ r ∈ rows, r.length = header.length) :
    processOneFile fs st path =
      .ok (updateTable st (sanitize_table_name path)
             ⟨t.columns, false, t.records ++ rows⟩, []) := by
  have hcr : create_table_from_csv_header st (sanitize_table_name path) header
      = st := by
    simp [create_table_from_csv_header, hsome]
  have hrun := insertRows_ok (sanitize_table_name path) header.length rows st t
    hsome hc hu
  rw [filter_all_eq hrows, filter_none_ne hrows] at hrun
  simp only [processOneFile, hread, hcr, insert_csv_to_table, hrun, List.map_nil]

/-- Processing a file against an existing table whose column count
differs from this file's header aborts at the first well-formed data
row with an uncaught operational error. -/
lemma processOneFile_mismatch (fs : FileSystem) (st : Store) (path : String)
    (header : List String) (r : List String) (rest : List (List String))
    (t : Table)
    (hread : readFile fs path = .ok (header :: r :: rest))
    (hsome : lookupTable st (sanitize_table_name path) = some t)
    (hc : t.columns.length ≠ header.length)
    (hr : r.length = header.length) :
    processOneFile fs st path =
      .error (.operational
        "table has a different number of columns than values supplied") := by
  have hcr : create_table_from_csv_header st (sanitize_table_name path) header
      = st := by
    simp [create_table_from_csv_header, hsome]
  have hins : insertRow st (sanitize_table_name path) r =
      .error (.operational
        "table has a different number of columns than values supplied") := by
    have hne : ¬ (r.length = t.columns.length) := by
      rw [hr]
      exact fun hh => hc hh.symm
    simp [insertRow, hsome, hne]
  simp only [processOneFile, hread, hcr, insert_csv_to_table]
  simp [insertRows, hr, hins, isIntegrity]

/-- C4, counterexample: `a-1.csv` (two columns) then `a.1.csv` (one
column) collide on table `a_1`; contrary to the claim, the second
file's first insert raises an uncaught operational error, the run
aborts rather than continuing per row, and nothing is committed. -/
theorem collision_counterexample :
    add_csvs_to_database []
        [("a-1.csv", .ok [["x", "y"], ["1", "2"]]), ("a.1.csv", .ok [["p"], ["3"]])]
        ["a-1.csv", "a.1.csv"]
      = .err (.operational
            "table has a different number of columns than values supplied")
          [("a_1", ⟨[("x", "TEXT"), ("y", "TEXT")], false, [["1", "2"]]⟩)] []
    ∧ committedStore []
        [("a-1.csv", .ok [["x", "y"], ["1", "2"]]), ("a.1.csv", .ok [["p"], ["3"]])]
        ["a-1.csv", "a.1.csv"] = [] :=
  ⟨by rfl, by rfl⟩

/-- C4, amended: both names sanitize to `a_1`; rows of both well-formed
files land in the one table exactly when the header column counts
match; when they differ, the second file's first insert raises an
uncaught (non-integrity) store error, the run aborts there, and the
transaction is never committed. -/
theorem collision_amended (h1 h2 : List String) (rows1 rows2 : List (List String))
    (hr1 : ∀ r ∈ rows1, r.length = h1.length)
    (hr2 : ∀ r ∈ rows2, r.length = h2.length) :
    sanitize_table_name "a-1.csv" = "a_1"
    ∧ sanitize_table_name "a.1.csv" = "a_1"
    ∧ (h1.length = h2.length →
        add_csvs_to_database []
            [("a-1.csv", .ok (h1 :: rows1)), ("a.1.csv", .ok (h2 :: rows2))]
            ["a-1.csv", "a.1.csv"]
          = .ok [("a_1", ⟨h1.map (fun c => (c, "TEXT")), false, rows1 ++ rows2⟩)] [])
    ∧ (h1.length ≠ h2.length → ∀ r rest2, rows2 = r :: rest2 →
        add_csvs_to_database []
            [("a-1.csv", .ok (h1 :: rows1)), ("a.1.csv", .ok (h2 :: rows2))]
            ["a-1.csv", "a.1.csv"]
          = .err (.operational
                "table has a different number of columns than values supplied")
              [("a_1", ⟨h1.map (fun c => (c, "TEXT")), false, rows1⟩)] []
        ∧ committedStore []
            [("a-1.csv", .ok (h1 :: rows1)), ("a.1.csv", .ok (h2 :: rows2))]
            ["a-1.csv", "a.1.csv"] = []) := by
  have hsan1 : sanitize_table_name "a-1.csv" = "a_1" := by rfl
  have hsan2 : sanitize_table_name "a.1.csv" = "a_1" := by rfl
  refine ⟨hsan1, hsan2, ?_, ?_⟩
  all_goals
    have hread1 : readFile
        [("a-1.csv", .ok (h1 :: rows1)), ("a.1.csv", .ok (h2 :: rows2))] "a-1.csv"
        = .ok (h1 :: rows1) := by rfl
    have hread2 : readFile
        [("a-1.csv", .ok (h1 :: rows1)), ("a.1.csv", .ok (h2 :: rows2))] "a.1.csv"
        = .ok (h2 :: rows2) := by rfl
    have hp1 := processOneFile_new
      [("a-1.csv", .ok (h1 :: rows1)), ("a.1.csv", .ok (h2 :: rows2))]
      [] "a-1.csv" h1 rows1 hread1 (by rfl) hr1
    rw [hsan1] at hp1
    simp only [List.nil_append] at hp1
    have hsome : lookupTable
        [("a_1", (⟨h1.map (fun c => (c, "TEXT")), false, rows1⟩ : Table))]
        (sanitize_table_name "a.1.csv")
        = some ⟨h1.map (fun c => (c, "TEXT")), false, rows1⟩ := by
      rw [hsan2]
      simp [lookupTable]
  · intro heq
    have hp2 := processOneFile_existing
      [("a-1.csv", .ok (h1 :: rows1)), ("a.1.csv", .ok (h2 :: rows2))]
      [("a_1", ⟨h1.map (fun c => (c, "TEXT")), false, rows1⟩)] "a.1.csv"
      h2 rows2 ⟨h1.map (fun c => (c, "TEXT")), false, rows1⟩
      hread2 hsome (by simpa using heq) rfl hr2
    rw [hsan2] at hp2
    simp only [updateTable, if_pos] at hp2
    unfold add_csvs_to_database
    simp only [processFiles, hp1]
    simp only [processFiles, hp2]
    simp
  · intro hne r rest2 hrows2
    subst hrows2
    have hp2 := processOneFile_mismatch
      [("a-1.csv", .ok (h1 :: rows1)), ("a.1.csv", .ok (h2 :: r :: rest2))]
      [("a_1", ⟨h1.map (fun c => (c, "TEXT")), false, rows1⟩)] "a.1.csv"
      h2 r rest2 ⟨h1.map (fun c => (c, "TEXT")), false, rows1⟩
      hread2 hsome (by simpa using hne) (hr2 r (by simp))
    have h1run : add_csvs_to_database []
        [("a-1.csv", .ok (h1 :: rows1)), ("a.1.csv", .ok (h2 :: r :: rest2))]
        ["a-1.csv", "a.1.csv"]
        = .err (.operational
            "table has a different number of columns than values supplied")
          [("a_1", ⟨h1.map (fun c => (c, "TEXT")), false, rows1⟩)] [] := by
      unfold add_csvs_to_database
      simp only [processFiles, hp1]
      simp only [processFiles, hp2]
      simp
    exact ⟨h1run, by simp [committedStore, h1run]⟩

/-- Witness for the amended C4: equal header widths merge both files'
rows into the single table `a_1`. -/
theorem collision_amended_witness :
    add_csvs_to_database []
        [("a-1.csv", .ok [["x", "y"], ["1", "2"]]),
         ("a.1.csv", .ok [["p", "q"], ["3", "4"]])]
        ["a-1.csv", "a.1.csv"]
      = .ok [("a_1", ⟨[("x", "TEXT"), ("y", "TEXT")], false,
              [["1", "2"], ["3", "4"]]⟩)] [] :=
  ((collision_amended ["x", "y"] ["p", "q"] [["1", "2"]] [["3", "4"]]
      (by decide) (by decide)).2.2.1 rfl).trans (by rfl)
